import Mathlib

/-!
Shallow embedding of `celery_sqlalchemy_scheduler/models.py`.

Rows of the SQLAlchemy models become Lean structures; a session is
modelled as the list of rows of the one table an operation touches,
together with an autoincrement counter where rows are inserted.
`dt.datetime.now()` is passed in as an explicit integer timestamp.
Python exceptions are modelled as an `Except` error value carrying the
exception class name and message.
-/

/-- A Python exception: its class name and its message. -/
structure PyError where
  kind : String
  msg : String
deriving DecidableEq, Repr

/-- The `period` column / keyword of `IntervalSchedule`.
Modelled from the spec: the `literals` module (MICROSECONDS, SECONDS,
MINUTES, HOURS, ...) is not under src/; the spec gives the enumeration
`period: enum{microseconds, seconds, minutes, hours, days}`. -/
inductive Period where
  | microseconds
  | seconds
  | minutes
  | hours
  | days
deriving DecidableEq, Repr

/-- Seconds per unit of each period, as used by
`datetime.timedelta(**{period: every})`. -/
def Period.secondsPerUnit : Period → ℚ
  | Period.microseconds => 1 / 1000000
  | Period.seconds => 1
  | Period.minutes => 60
  | Period.hours => 3600
  | Period.days => 86400

/-- A `datetime.timedelta`, stored as its exact length in seconds
(rationals keep the arithmetic exact). -/
structure Timedelta where
  seconds : ℚ
deriving DecidableEq, Repr

/-- `timedelta(**{period: every})`. -/
def Timedelta.ofPeriod (period : Period) (every : ℚ) : Timedelta :=
  ⟨every * period.secondsPerUnit⟩

/-- `timedelta.total_seconds()`: the duration expressed in seconds. -/
def Timedelta.total_seconds (td : Timedelta) : ℚ :=
  td.seconds

/-- A `celery.schedules.schedule` as consumed by
`IntervalSchedule.from_schedule`: only its `run_every` timedelta is read. -/
structure RunEverySchedule where
  run_every : Timedelta
deriving DecidableEq, Repr

/-- A row of `celery_interval_schedule` (class `IntervalSchedule`). -/
structure IntervalSchedule where
  id : Nat
  every : ℚ
  period : Period
deriving DecidableEq, Repr

/-- The `celery_interval_schedule` table plus its autoincrement counter. -/
structure IntervalStore where
  rows : List IntervalSchedule
  nextId : Nat
deriving DecidableEq, Repr

/-- `IntervalSchedule.schedule`: builds
`schedules.schedule(timedelta(**{self.period: self.every}))`; we keep the
`run_every` timedelta it wraps. -/
def IntervalSchedule.schedule (row : IntervalSchedule) : Timedelta :=
  Timedelta.ofPeriod row.period row.every

/-- The `every` value computed by `IntervalSchedule.from_schedule`:
`max(schedule.run_every.total_seconds(), 0)`. -/
def IntervalSchedule.everyOf (schedule : RunEverySchedule) : ℚ :=
  max schedule.run_every.total_seconds 0

/-- The `filter_by(every=every, period=period)` predicate of
`IntervalSchedule.from_schedule`: exact equality on the pair. -/
def IntervalSchedule.matchesSpec (schedule : RunEverySchedule)
    (period : Period) (r : IntervalSchedule) : Bool :=
  decide (r.every = IntervalSchedule.everyOf schedule ∧ r.period = period)

/-- `IntervalSchedule.from_schedule(session, schedule, period=SECONDS)`:
computes `every = max(schedule.run_every.total_seconds(), 0)`, queries the
first row with exactly that `(every, period)` pair, and inserts a fresh
row when none matches.  Returns the updated table and the row. -/
def IntervalSchedule.from_schedule (session : IntervalStore)
    (schedule : RunEverySchedule) (period : Period := Period.seconds) :
    IntervalStore × IntervalSchedule :=
  match session.rows.find? (IntervalSchedule.matchesSpec schedule period) with
  | some model => (session, model)
  | none =>
      let model : IntervalSchedule :=
        ⟨session.nextId, IntervalSchedule.everyOf schedule, period⟩
      (⟨session.rows ++ [model], session.nextId + 1⟩, model)

/-- Modelled from the spec: the `TzAwareCrontab` class (module
`tzcrontab`, not under src/) carries the five crontab field strings it was
constructed from and a timezone, "IANA zone name, default UTC"; omitting
the `tz` argument leaves the default. -/
structure TzAwareCrontab where
  minute : String
  hour : String
  day_of_week : String
  day_of_month : String
  month_of_year : String
  tz : String := "UTC"
deriving DecidableEq, Repr

/-- A crontab-style schedule object as consumed by
`CrontabSchedule.from_schedule`: the five original field strings
(`_orig_minute`, ...) and `schedule.tz`, whose zone name is read only when
the timezone is set (`if schedule.tz:`), hence an `Option`. -/
structure CrontabScheduleIn where
  minute : String
  hour : String
  day_of_week : String
  day_of_month : String
  month_of_year : String
  tz : Option String
deriving DecidableEq, Repr

/-- A row of `celery_crontab_schedule` (class `CrontabSchedule`);
the `timezone` column defaults to `'UTC'`. -/
structure CrontabSchedule where
  id : Nat
  minute : String
  hour : String
  day_of_week : String
  day_of_month : String
  month_of_year : String
  timezone : String
deriving DecidableEq, Repr

/-- The `celery_crontab_schedule` table plus its autoincrement counter. -/
structure CrontabStore where
  rows : List CrontabSchedule
  nextId : Nat
deriving DecidableEq, Repr

/-- `CrontabSchedule.schedule`: builds a `TzAwareCrontab` from the five
field columns.  The `tz=tz.gettz(self.timezone)` argument is commented out
in the source, so the constructed object keeps the default timezone. -/
def CrontabSchedule.schedule (row : CrontabSchedule) : TzAwareCrontab :=
  { minute := row.minute
    hour := row.hour
    day_of_week := row.day_of_week
    day_of_month := row.day_of_month
    month_of_year := row.month_of_year }

/-- The `filter_by(**spec)` predicate of `CrontabSchedule.from_schedule`:
the five field strings always, the timezone only when the incoming
schedule has one. -/
def CrontabSchedule.matchesSpec (schedule : CrontabScheduleIn)
    (r : CrontabSchedule) : Bool :=
  decide (r.minute = schedule.minute ∧ r.hour = schedule.hour ∧
    r.day_of_week = schedule.day_of_week ∧
    r.day_of_month = schedule.day_of_month ∧
    r.month_of_year = schedule.month_of_year) &&
  (match schedule.tz with
   | some z => decide (r.timezone = z)
   | none => true)

/-- `CrontabSchedule.from_schedule(session, schedule)`: builds the spec
dict from the five `_orig_*` strings, adds `timezone` only when
`schedule.tz` is set, queries the first matching row, and inserts a fresh
row when none matches (the new row's timezone column falls back to the
`'UTC'` column default when the spec has none). -/
def CrontabSchedule.from_schedule (session : CrontabStore)
    (schedule : CrontabScheduleIn) : CrontabStore × CrontabSchedule :=
  match session.rows.find? (CrontabSchedule.matchesSpec schedule) with
  | some model => (session, model)
  | none =>
      let model : CrontabSchedule :=
        ⟨session.nextId, schedule.minute, schedule.hour,
          schedule.day_of_week, schedule.day_of_month,
          schedule.month_of_year, schedule.tz.getD "UTC"⟩
      (⟨session.rows ++ [model], session.nextId + 1⟩, model)

/-- A `celery.schedules.solar` as consumed by
`SolarSchedule.from_schedule`: its `event`, `lat` and `lon`. -/
structure SolarScheduleIn where
  event : String
  lat : ℚ
  lon : ℚ
deriving DecidableEq, Repr

/-- A row of `celery_solar_schedule` (class `SolarSchedule`). -/
structure SolarSchedule where
  id : Nat
  event : String
  latitude : ℚ
  longitude : ℚ
deriving DecidableEq, Repr

/-- The `celery_solar_schedule` table plus its autoincrement counter. -/
structure SolarStore where
  rows : List SolarSchedule
  nextId : Nat
deriving DecidableEq, Repr

/-- The `filter_by(event=..., latitude=..., longitude=...)` predicate of
`SolarSchedule.from_schedule`: exact equality on the triple. -/
def SolarSchedule.matchesSpec (schedule : SolarScheduleIn)
    (r : SolarSchedule) : Bool :=
  decide (r.event = schedule.event ∧ r.latitude = schedule.lat ∧
    r.longitude = schedule.lon)

/-- `SolarSchedule.from_schedule(session, schedule)`: queries the first
row equal on `(event, latitude, longitude)` and inserts a fresh row when
none matches. -/
def SolarSchedule.from_schedule (session : SolarStore)
    (schedule : SolarScheduleIn) : SolarStore × SolarSchedule :=
  match session.rows.find? (SolarSchedule.matchesSpec schedule) with
  | some model => (session, model)
  | none =>
      let model : SolarSchedule :=
        ⟨session.nextId, schedule.event, schedule.lat, schedule.lon⟩
      (⟨session.rows ++ [model], session.nextId + 1⟩, model)

/-- `SolarSchedule.schedule`: builds
`schedules.solar(self.event, self.latitude, self.longitude, ...)`;
we keep the triple it wraps. -/
def SolarSchedule.schedule (row : SolarSchedule) : SolarScheduleIn :=
  ⟨row.event, row.latitude, row.longitude⟩

/-- The schedule object returned by the `PeriodicTask.schedule` property:
one of the three variants' schedule objects. -/
inductive Sched where
  | interval (run_every : Timedelta)
  | crontab (c : TzAwareCrontab)
  | solar (s : SolarScheduleIn)
deriving DecidableEq, Repr

/-- A row of `celery_periodic_task` (class `PeriodicTask`), restricted to
the columns the modelled operations read.  The three relationship
attributes are the (optionally) loaded related rows; `no_changes` is the
class attribute defaulting to `False`. -/
structure PeriodicTask where
  id : Nat
  name : String
  task : String
  interval : Option IntervalSchedule
  crontab : Option CrontabSchedule
  solar : Option SolarSchedule
  one_off : Bool := false
  enabled : Bool := true
  total_run_count : Nat := 0
  no_changes : Bool := false
deriving DecidableEq, Repr

/-- The `PeriodicTask.schedule` property: returns the schedule of the
first populated relationship, checked in the order interval, crontab,
solar, and raises `ValueError('{} schedule is None!'.format(self.name))`
when all three are unset. -/
def PeriodicTask.schedule (t : PeriodicTask) : Except PyError Sched :=
  match t.interval with
  | some i => Except.ok (Sched.interval i.schedule)
  | none =>
    match t.crontab with
    | some c => Except.ok (Sched.crontab c.schedule)
    | none =>
      match t.solar with
      | some s => Except.ok (Sched.solar s.schedule)
      | none =>
          Except.error ⟨"ValueError", t.name ++ " schedule is None!"⟩

/-- A row of `celery_periodic_task_changed` (class `PeriodicTaskChanged`). -/
structure PeriodicTaskChanged where
  id : Nat
  last_update : Int
deriving DecidableEq, Repr

/-- The `celery_periodic_task_changed` table (no autoincrement: the id is
always given explicitly). -/
structure ChangedStore where
  rows : List PeriodicTaskChanged
deriving DecidableEq, Repr

/-- `PeriodicTaskChanged.update_changed(session)`: fetches the row with
primary key 1, creating `PeriodicTaskChanged(id=1)` when absent, sets its
`last_update` to `dt.datetime.now()` (the explicit `now` argument here)
and commits. -/
def PeriodicTaskChanged.update_changed (now : Int) (session : ChangedStore) :
    ChangedStore :=
  match session.rows.find? (fun r => decide (r.id = 1)) with
  | some _ =>
      ⟨session.rows.map (fun r => if r.id = 1 then ⟨r.id, now⟩ else r)⟩
  | none => ⟨session.rows ++ [⟨1, now⟩]⟩

/-- `PeriodicTaskChanged.last_change(session)`: the `last_update` of the
row with primary key 1, if present. -/
def PeriodicTaskChanged.last_change (session : ChangedStore) : Option Int :=
  (session.rows.find? (fun r => decide (r.id = 1))).map
    (fun r => r.last_update)

/-- `PeriodicTaskChanged.changed(instance, session)`: does nothing when
`instance.no_changes` is set; otherwise executes `cls.update_changed()` —
a call that passes no argument to the classmethod
`update_changed(cls, session)`, which therefore raises
`TypeError: update_changed() missing 1 required positional argument:
'session'` before any row is touched. -/
def PeriodicTaskChanged.changed (inst : PeriodicTask)
    (session : ChangedStore) : Except PyError ChangedStore :=
  if inst.no_changes then Except.ok session
  else
    Except.error ⟨"TypeError",
      "update_changed() missing 1 required positional argument: " ++
        "\x27session\x27"⟩

/-- One operation against the `celery_periodic_task_changed` table: a bump
(`update_changed` at some wall-clock time) or a read (`last_change`,
which does not modify the table). -/
inductive CVOp where
  | bump (now : Int)
  | read
deriving DecidableEq, Repr

/-- Run a sequence of bump/read operations against the table. -/
def runCV : List CVOp → ChangedStore → ChangedStore
  | [], s => s
  | CVOp.bump now :: ops, s => runCV ops (PeriodicTaskChanged.update_changed now s)
  | CVOp.read :: ops, s => runCV ops s

/-! ### Dedup lemmas for the three `from_schedule` get-or-create paths -/

/-- The row returned by `IntervalSchedule.from_schedule` satisfies the
lookup predicate of its own spec. -/
theorem interval_from_schedule_matches (s : IntervalStore)
    (sched : RunEverySchedule) (p : Period) :
    IntervalSchedule.matchesSpec sched p
      (IntervalSchedule.from_schedule s sched p).2 = true := by
  unfold IntervalSchedule.from_schedule
  split
  next m h => exact List.find?_some h
  next h => simp [IntervalSchedule.matchesSpec]

/-- After `IntervalSchedule.from_schedule`, the lookup on the resulting
table finds exactly the returned row. -/
theorem interval_find?_from_schedule (s : IntervalStore)
    (sched : RunEverySchedule) (p : Period) :
    (IntervalSchedule.from_schedule s sched p).1.rows.find?
        (IntervalSchedule.matchesSpec sched p)
      = some (IntervalSchedule.from_schedule s sched p).2 := by
  unfold IntervalSchedule.from_schedule
  split
  next m h => exact h
  next h =>
    rw [List.find?_append, h]
    simp [IntervalSchedule.matchesSpec]

/-- When the lookup already finds a row, `IntervalSchedule.from_schedule`
returns it and leaves the table untouched. -/
theorem interval_from_schedule_of_found (s : IntervalStore)
    (sched : RunEverySchedule) (p : Period) (r : IntervalSchedule)
    (h : s.rows.find? (IntervalSchedule.matchesSpec sched p) = some r) :
    IntervalSchedule.from_schedule s sched p = (s, r) := by
  unfold IntervalSchedule.from_schedule
  rw [h]

/-- The row returned by `CrontabSchedule.from_schedule` satisfies the
lookup predicate of its own spec. -/
theorem crontab_from_schedule_matches (s : CrontabStore)
    (spec : CrontabScheduleIn) :
    CrontabSchedule.matchesSpec spec
      (CrontabSchedule.from_schedule s spec).2 = true := by
  unfold CrontabSchedule.from_schedule
  split
  next m h => exact List.find?_some h
  next h => cases htz : spec.tz <;> simp [CrontabSchedule.matchesSpec, htz]

/-- After `CrontabSchedule.from_schedule`, the lookup on the resulting
table finds exactly the returned row. -/
theorem crontab_find?_from_schedule (s : CrontabStore)
    (spec : CrontabScheduleIn) :
    (CrontabSchedule.from_schedule s spec).1.rows.find?
        (CrontabSchedule.matchesSpec spec)
      = some (CrontabSchedule.from_schedule s spec).2 := by
  unfold CrontabSchedule.from_schedule
  split
  next m h => exact h
  next h =>
    rw [List.find?_append, h]
    cases htz : spec.tz <;> simp [CrontabSchedule.matchesSpec, htz]

/-- When the lookup already finds a row, `CrontabSchedule.from_schedule`
returns it and leaves the table untouched. -/
theorem crontab_from_schedule_of_found (s : CrontabStore)
    (spec : CrontabScheduleIn) (r : CrontabSchedule)
    (h : s.rows.find? (CrontabSchedule.matchesSpec spec) = some r) :
    CrontabSchedule.from_schedule s spec = (s, r) := by
  unfold CrontabSchedule.from_schedule
  rw [h]

/-- The row returned by `SolarSchedule.from_schedule` satisfies the
lookup predicate of its own spec. -/
theorem solar_from_schedule_matches (s : SolarStore)
    (spec : SolarScheduleIn) :
    SolarSchedule.matchesSpec spec
      (SolarSchedule.from_schedule s spec).2 = true := by
  unfold SolarSchedule.from_schedule
  split
  next m h => exact List.find?_some h
  next h => simp [SolarSchedule.matchesSpec]

/-- After `SolarSchedule.from_schedule`, the lookup on the resulting
table finds exactly the returned row. -/
theorem solar_find?_from_schedule (s : SolarStore)
    (spec : SolarScheduleIn) :
    (SolarSchedule.from_schedule s spec).1.rows.find?
        (SolarSchedule.matchesSpec spec)
      = some (SolarSchedule.from_schedule s spec).2 := by
  unfold SolarSchedule.from_schedule
  split
  next m h => exact h
  next h =>
    rw [List.find?_append, h]
    simp [SolarSchedule.matchesSpec]

/-- When the lookup already finds a row, `SolarSchedule.from_schedule`
returns it and leaves the table untouched. -/
theorem solar_from_schedule_of_found (s : SolarStore)
    (spec : SolarScheduleIn) (r : SolarSchedule)
    (h : s.rows.find? (SolarSchedule.matchesSpec spec) = some r) :
    SolarSchedule.from_schedule s spec = (s, r) := by
  unfold SolarSchedule.from_schedule
  rw [h]

/-! ### ChangeVersion (`celery_periodic_task_changed`) lemmas -/

/-- The invariant of the `celery_periodic_task_changed` table: at most one
row, and its primary key is the fixed value 1. -/
def ChangedStore.Inv (s : ChangedStore) : Prop :=
  s.rows.length ≤ 1 ∧ ∀ r ∈ s.rows, r.id = 1

/-- A bump always leaves `last_change` at the bump's wall-clock time: the
row with primary key 1 is updated, or created when absent. -/
theorem PeriodicTaskChanged.last_change_update_changed (now : Int)
    (s : ChangedStore) :
    PeriodicTaskChanged.last_change (PeriodicTaskChanged.update_changed now s)
      = some now := by
  unfold PeriodicTaskChanged.update_changed PeriodicTaskChanged.last_change
  split
  next r h =>
    rw [List.find?_map]
    have hcomp : ((fun r : PeriodicTaskChanged => decide (r.id = 1)) ∘
        (fun r : PeriodicTaskChanged =>
          if r.id = 1 then (⟨r.id, now⟩ : PeriodicTaskChanged) else r))
        = (fun r : PeriodicTaskChanged => decide (r.id = 1)) := by
      funext x
      by_cases hx : x.id = 1 <;> simp [hx]
    rw [hcomp, h]
    have hr1 : r.id = 1 := by simpa using List.find?_some h
    simp [hr1]
  next h =>
    rw [List.find?_append, h]
    simp

/-- A bump preserves the singleton invariant. -/
theorem PeriodicTaskChanged.update_changed_inv (now : Int) (s : ChangedStore)
    (h : ChangedStore.Inv s) :
    ChangedStore.Inv (PeriodicTaskChanged.update_changed now s) := by
  obtain ⟨hlen, hids⟩ := h
  unfold PeriodicTaskChanged.update_changed
  split
  next r hr =>
    refine ⟨by simpa using hlen, ?_⟩
    intro x hx
    simp only [List.mem_map] at hx
    obtain ⟨y, hy, rfl⟩ := hx
    by_cases hy1 : y.id = 1 <;> simp [hy1, hids y hy]
  next hr =>
    have hnil : s.rows = [] := by
      cases hsr : s.rows with
      | nil => rfl
      | cons a t =>
          rw [List.find?_eq_none] at hr
          have ha : a ∈ s.rows := by rw [hsr]; exact List.mem_cons_self a t
          have := hr a ha
          simp [hids a ha] at this
    refine ⟨?_, ?_⟩ <;> simp [hnil]

/-- Running any sequence of bump/read operations preserves the singleton
invariant. -/
theorem runCV_inv (ops : List CVOp) (s : ChangedStore)
    (h : ChangedStore.Inv s) : ChangedStore.Inv (runCV ops s) := by
  induction ops generalizing s with
  | nil => exact h
  | cons op ops ih =>
      cases op with
      | bump now => exact ih _ (PeriodicTaskChanged.update_changed_inv now s h)
      | read => exact ih _ h

/-! ### Claim theorems -/

/-- C1 (counterexample): on a concrete task with none of the three rule
references set, `PeriodicTask.schedule` fails by raising
`ValueError('mytask schedule is None!')` — a raised builtin exception, not
a returned `NoScheduleConfigured` error value. -/
theorem schedule_no_rule_error_kind_cex :
    PeriodicTask.schedule
        ⟨1, "mytask", "tasks.add", none, none, none, false, true, 0, false⟩
      = Except.error ⟨"ValueError", "mytask schedule is None!"⟩ ∧
    ("ValueError" : String) ≠ "NoScheduleConfigured" :=
  ⟨rfl, by decide⟩

/-- C1 (amended): for every PeriodicTask in which none of the three rule
references (interval, crontab, solar) is set, `PeriodicTask.schedule`
fails by raising `ValueError('{name} schedule is None!')`. -/
theorem schedule_raises_valueError_when_no_rule (t : PeriodicTask)
    (h1 : t.interval = none) (h2 : t.crontab = none) (h3 : t.solar = none) :
    PeriodicTask.schedule t
      = Except.error ⟨"ValueError", t.name ++ " schedule is None!"⟩ := by
  unfold PeriodicTask.schedule
  rw [h1, h2, h3]

/-- C1 (witness): the amended theorem applied to a concrete task with no
rule reference. -/
theorem schedule_raises_valueError_when_no_rule_witness :
    PeriodicTask.schedule
        ⟨4, "norule", "tasks.add", none, none, none, false, true, 0, false⟩
      = Except.error ⟨"ValueError", "norule schedule is None!"⟩ :=
  schedule_raises_valueError_when_no_rule
    ⟨4, "norule", "tasks.add", none, none, none, false, true, 0, false⟩
    rfl rfl rfl

/-- C2: dedup idempotence for all three get-or-create resolve operations:
calling `from_schedule` a second time with the identical spec on the table
returned by the first call returns the same (table, row) pair — the same
stored row identity, and no second row is created. -/
theorem from_schedule_idempotent :
    (∀ (s : IntervalStore) (sched : RunEverySchedule) (p : Period),
      IntervalSchedule.from_schedule
          (IntervalSchedule.from_schedule s sched p).1 sched p
        = IntervalSchedule.from_schedule s sched p) ∧
    (∀ (s : CrontabStore) (spec : CrontabScheduleIn),
      CrontabSchedule.from_schedule
          (CrontabSchedule.from_schedule s spec).1 spec
        = CrontabSchedule.from_schedule s spec) ∧
    (∀ (s : SolarStore) (spec : SolarScheduleIn),
      SolarSchedule.from_schedule
          (SolarSchedule.from_schedule s spec).1 spec
        = SolarSchedule.from_schedule s spec) :=
  ⟨fun s sched p => interval_from_schedule_of_found _ _ _ _
      (interval_find?_from_schedule s sched p),
   fun s spec => crontab_from_schedule_of_found _ _ _
      (crontab_find?_from_schedule s spec),
   fun s spec => solar_from_schedule_of_found _ _ _
      (solar_find?_from_schedule s spec)⟩

/-- C3 (counterexample): with a stored row whose timezone is
`'Asia/Tokyo'` and an incoming spec carrying the same five field strings
but no timezone, the lookup returns that row even though its timezone
differs from the incoming spec's default (`'UTC'`): the dedup key is not
exact on all six values. -/
theorem crontab_dedup_ignores_timezone_cex :
    (CrontabSchedule.from_schedule
        ⟨[⟨0, "0", "9", "1-5", "*", "*", "Asia/Tokyo"⟩], 1⟩
        ⟨"0", "9", "1-5", "*", "*", none⟩).2
      = ⟨0, "0", "9", "1-5", "*", "*", "Asia/Tokyo"⟩ ∧
    ("Asia/Tokyo" : String) ≠ "UTC" :=
  ⟨rfl, by decide⟩

/-- C3 (amended): the dedup lookup of `CrontabSchedule.from_schedule` is
exact equality on the five field-spec strings always, and on the timezone
string exactly when the incoming schedule carries a timezone; the returned
row agrees with the incoming spec on the five fields, and on the timezone
whenever one is given. -/
theorem crontab_dedup_key_exact (s : CrontabStore) (spec : CrontabScheduleIn) :
    (CrontabSchedule.from_schedule s spec).2.minute = spec.minute ∧
    (CrontabSchedule.from_schedule s spec).2.hour = spec.hour ∧
    (CrontabSchedule.from_schedule s spec).2.day_of_week = spec.day_of_week ∧
    (CrontabSchedule.from_schedule s spec).2.day_of_month = spec.day_of_month ∧
    (CrontabSchedule.from_schedule s spec).2.month_of_year = spec.month_of_year ∧
    ∀ z, spec.tz = some z → (CrontabSchedule.from_schedule s spec).2.timezone = z := by
  have h := crontab_from_schedule_matches s spec
  unfold CrontabSchedule.matchesSpec at h
  rw [Bool.and_eq_true, decide_eq_true_eq] at h
  obtain ⟨h5, htz⟩ := h
  refine ⟨h5.1, h5.2.1, h5.2.2.1, h5.2.2.2.1, h5.2.2.2.2, ?_⟩
  intro z hz
  rw [hz] at htz
  simpa using htz

/-- C3 (witness): the amended theorem applied to a concrete spec that
carries the timezone `'Asia/Tokyo'`. -/
theorem crontab_dedup_key_exact_witness :
    (CrontabSchedule.from_schedule ⟨[], 0⟩
        ⟨"0", "9", "1-5", "*", "*", some "Asia/Tokyo"⟩).2.timezone
      = "Asia/Tokyo" :=
  (crontab_dedup_key_exact ⟨[], 0⟩
    ⟨"0", "9", "1-5", "*", "*", some "Asia/Tokyo"⟩).2.2.2.2.2
    "Asia/Tokyo" rfl

/-- C4 (code bug): on a concrete task whose `no_changes` flag is false,
`PeriodicTaskChanged.changed` does not bump the change record: the call
`cls.update_changed()` passes no session to the classmethod
`update_changed(cls, session)` and therefore raises a `TypeError` before
any row is touched. -/
theorem changed_raises_typeError_on_bump_path :
    PeriodicTaskChanged.changed
        ⟨1, "mytask", "tasks.add", none, none, none, false, true, 0, false⟩
        ⟨[]⟩
      = Except.error ⟨"TypeError",
          "update_changed() missing 1 required positional argument: " ++
            "\x27session\x27"⟩ ∧
    (⟨1, "mytask", "tasks.add", none, none, none, false, true, 0,
        false⟩ : PeriodicTask).no_changes = false :=
  ⟨rfl, rfl⟩

/-- C5 (code bug): the schedule object built by `CrontabSchedule.schedule`
for a concrete row configured with timezone `'Asia/Tokyo'` carries the
default timezone `'UTC'` instead: the `tz=tz.gettz(self.timezone)`
argument is commented out in the source, so the stored timezone field does
not determine the evaluation zone. -/
theorem crontab_schedule_drops_timezone :
    (CrontabSchedule.schedule ⟨7, "0", "9", "1-5", "*", "*", "Asia/Tokyo"⟩).tz
      = "UTC" ∧
    (⟨7, "0", "9", "1-5", "*", "*", "Asia/Tokyo"⟩ : CrontabSchedule).timezone
      = "Asia/Tokyo" ∧
    ("Asia/Tokyo" : String) ≠ "UTC" :=
  ⟨rfl, rfl, by decide⟩

/-- C6: ChangeVersion singleton invariant: a bump sets `last_update` to
the current time on the row with the fixed primary key 1 (creating it when
absent), and every table state reachable from the empty table by bump and
read operations holds at most one row, whose id is 1. -/
theorem changeVersion_singleton_invariant :
    (∀ (now : Int) (s : ChangedStore),
      PeriodicTaskChanged.last_change
          (PeriodicTaskChanged.update_changed now s)
        = some now) ∧
    (∀ ops : List CVOp,
      (runCV ops ⟨[]⟩).rows.length ≤ 1 ∧
      (runCV ops ⟨[]⟩).rows.all (fun r => decide (r.id = 1)) = true) := by
  refine ⟨PeriodicTaskChanged.last_change_update_changed, ?_⟩
  intro ops
  have h := runCV_inv ops ⟨[]⟩ ⟨by simp, by simp⟩
  obtain ⟨hlen, hids⟩ := h
  refine ⟨hlen, ?_⟩
  rw [List.all_eq_true]
  intro r hr
  simpa using hids r hr

/-- C7 (counterexample): a schedule whose `run_every` is the zero
timedelta is accepted by `IntervalSchedule.from_schedule` and yields a
stored row with `every = 0`, which is not strictly positive. -/
theorem interval_every_zero_cex :
    (IntervalSchedule.from_schedule ⟨[], 0⟩ ⟨⟨0⟩⟩ Period.seconds).2.every = 0 ∧
    ¬ (0 < (IntervalSchedule.from_schedule ⟨[], 0⟩ ⟨⟨0⟩⟩
        Period.seconds).2.every) := by
  have h : (IntervalSchedule.from_schedule ⟨[], 0⟩ ⟨⟨0⟩⟩
      Period.seconds).2.every = 0 := rfl
  exact ⟨h, by rw [h]; exact lt_irrefl 0⟩

/-- C7 (amended): every row returned by `IntervalSchedule.from_schedule`
has `every ≥ 0` — the `max(..., 0)` clamp rules out negative values, but
zero is attainable, so strict positivity does not hold. -/
theorem interval_every_nonneg (s : IntervalStore) (sched : RunEverySchedule)
    (p : Period) :
    0 ≤ (IntervalSchedule.from_schedule s sched p).2.every := by
  have h := interval_from_schedule_matches s sched p
  unfold IntervalSchedule.matchesSpec at h
  rw [decide_eq_true_eq] at h
  rw [h.1]
  exact le_max_right _ _

/-- C8: for every task whose `no_changes` flag is true (the scheduler's
own run-bookkeeping write-back), `PeriodicTaskChanged.changed` returns the
change table unchanged: no bump occurs, so `last_change` is the same
before and after. -/
theorem changed_noop_when_no_changes (t : PeriodicTask) (s : ChangedStore)
    (h : t.no_changes = true) :
    PeriodicTaskChanged.changed t s = Except.ok s := by
  unfold PeriodicTaskChanged.changed
  rw [h]
  rfl

/-- C8 (witness): the theorem applied to a concrete task with
`no_changes = True` and a table already holding a change record. -/
theorem changed_noop_when_no_changes_witness :
    PeriodicTaskChanged.changed
        ⟨2, "own", "tasks.own", none, none, none, false, true, 3, true⟩
        ⟨[⟨1, 42⟩]⟩
      = Except.ok ⟨[⟨1, 42⟩]⟩ :=
  changed_noop_when_no_changes
    ⟨2, "own", "tasks.own", none, none, none, false, true, 3, true⟩
    ⟨[⟨1, 42⟩]⟩ rfl

/-- C9 (counterexample): the interval spec "every 1 minute" — the schedule
wrapping `timedelta(minutes=1)` resolved with `period = minutes` — is
stored with `every = 60`, not the spec's count 1: `from_schedule` rewrites
the value by converting `run_every` to total seconds. -/
theorem interval_dedup_unit_conversion_cex :
    (IntervalSchedule.from_schedule ⟨[], 0⟩
        ⟨Timedelta.ofPeriod Period.minutes 1⟩ Period.minutes).2.every = 60 ∧
    ((60 : ℚ) ≠ 1) := by
  constructor
  · show IntervalSchedule.everyOf ⟨Timedelta.ofPeriod Period.minutes 1⟩ = 60
    unfold IntervalSchedule.everyOf Timedelta.ofPeriod Timedelta.total_seconds
      Period.secondsPerUnit
    rw [max_eq_left (by norm_num : (0 : ℚ) ≤ 1 * 60)]
    norm_num
  · norm_num

/-- C9 (amended): the dedup lookup of `IntervalSchedule.from_schedule` is
exact equality on the pair `(every, period)`, where `every` is
`max(run_every.total_seconds(), 0)` — the run_every duration converted to
seconds, whatever the period unit — and `period` is the passed unit; the
returned row carries exactly that key.  The stored `every` equals the
spec's count only when the unit is seconds. -/
theorem interval_dedup_key_total_seconds (s : IntervalStore)
    (sched : RunEverySchedule) (p : Period) :
    ((IntervalSchedule.from_schedule s sched p).2.every
        = IntervalSchedule.everyOf sched ∧
     (IntervalSchedule.from_schedule s sched p).2.period = p) ∧
    ∀ r : IntervalSchedule,
      IntervalSchedule.matchesSpec sched p r = true ↔
        (r.every = IntervalSchedule.everyOf sched ∧ r.period = p) := by
  constructor
  · have h := interval_from_schedule_matches s sched p
    unfold IntervalSchedule.matchesSpec at h
    rw [decide_eq_true_eq] at h
    exact h
  · intro r
    unfold IntervalSchedule.matchesSpec
    rw [decide_eq_true_eq]

/-- C10: implicit precedence of `PeriodicTask.schedule`: whenever the
interval reference is set the interval schedule is returned, whatever the
other two references hold; with interval unset a set crontab reference
wins over solar; solar is used only when the other two are unset — so a
task with more than one reference set does not fail, the fixed ordering
resolves it. -/
theorem schedule_priority_interval_crontab_solar :
    (∀ (t : PeriodicTask) (i : IntervalSchedule), t.interval = some i →
      PeriodicTask.schedule t = Except.ok (Sched.interval i.schedule)) ∧
    (∀ (t : PeriodicTask) (c : CrontabSchedule), t.interval = none →
      t.crontab = some c →
      PeriodicTask.schedule t = Except.ok (Sched.crontab c.schedule)) ∧
    (∀ (t : PeriodicTask) (sl : SolarSchedule), t.interval = none →
      t.crontab = none → t.solar = some sl →
      PeriodicTask.schedule t = Except.ok (Sched.solar sl.schedule)) := by
  refine ⟨?_, ?_, ?_⟩
  · intro t i h1
    unfold PeriodicTask.schedule
    rw [h1]
  · intro t c h1 h2
    unfold PeriodicTask.schedule
    rw [h1, h2]
  · intro t sl h1 h2 h3
    unfold PeriodicTask.schedule
    rw [h1, h2, h3]

/-- C10 (witness): the three precedence conjuncts applied to concrete
tasks: one with all three references set (interval wins), one with crontab
and solar set (crontab wins), and one with only solar set. -/
theorem schedule_priority_witness :
    PeriodicTask.schedule
        ⟨1, "all3", "w", some ⟨0, 10, Period.seconds⟩,
          some ⟨0, "*", "*", "*", "*", "*", "UTC"⟩,
          some ⟨0, "sunrise", 10, 20⟩, false, true, 0, false⟩
      = Except.ok (Sched.interval
          (IntervalSchedule.schedule ⟨0, 10, Period.seconds⟩)) ∧
    PeriodicTask.schedule
        ⟨2, "cs", "w", none, some ⟨0, "*", "*", "*", "*", "*", "UTC"⟩,
          some ⟨0, "sunrise", 10, 20⟩, false, true, 0, false⟩
      = Except.ok (Sched.crontab
          (CrontabSchedule.schedule ⟨0, "*", "*", "*", "*", "*", "UTC"⟩)) ∧
    PeriodicTask.schedule
        ⟨3, "s", "w", none, none, some ⟨0, "sunrise", 10, 20⟩, false, true,
          0, false⟩
      = Except.ok (Sched.solar
          (SolarSchedule.schedule ⟨0, "sunrise", 10, 20⟩)) :=
  ⟨schedule_priority_interval_crontab_solar.1 _ _ rfl,
   schedule_priority_interval_crontab_solar.2.1 _ _ rfl rfl,
   schedule_priority_interval_crontab_solar.2.2 _ _ rfl rfl rfl⟩
